import Mathlib

/-!
Verification of the session-routing core of src/bot.py.

The embedding models Python dictionaries as insertion-ordered association
lists (Lean lists of key/value pairs): updating an existing key keeps its
position, inserting a new key appends at the end, and deletion removes the
entry. Timestamps (time.time and datetime values) are modelled as integers
counting seconds. The Telegram transport is modelled by explicit oracle
parameters that state whether each outbound delivery succeeds, and each
handler returns the list of outbound effects it performed.
-/

abbrev UserId := Int

abbrev Time := Int

/-- Lookup of a key in an insertion-ordered association list, as Python
dict indexing does. -/
def dlookup {α β : Type} [DecidableEq α] (k : α) : List (α × β) → Option β
  | [] => none
  | q :: l => if q.1 = k then some q.2 else dlookup k l

/-- Python dict assignment: replace the value of an existing key in place,
or append a fresh key at the end. -/
def dinsert {α β : Type} [DecidableEq α] (k : α) (v : β) : List (α × β) → List (α × β)
  | [] => [(k, v)]
  | q :: l => if q.1 = k then (k, v) :: l else q :: dinsert k v l

/-- Python dict deletion of a key; removes the first matching entry and is
the identity when the key is absent. -/
def derase {α β : Type} [DecidableEq α] (k : α) : List (α × β) → List (α × β)
  | [] => []
  | q :: l => if q.1 = k then l else q :: derase k l

/-- Deletion of a batch of keys, one after the other. -/
def eraseKeys {α β : Type} [DecidableEq α] (ks : List α) (l : List (α × β)) : List (α × β) :=
  ks.foldl (fun m k => derase k m) l

/-- The state invariant of every Python dict: keys occur at most once. -/
def keysNodup {α β : Type} (l : List (α × β)) : Prop :=
  (l.map Prod.fst).Nodup

instance {α β : Type} [DecidableEq α] (l : List (α × β)) : Decidable (keysNodup l) := by
  unfold keysNodup
  infer_instance

theorem dlookup_dinsert_self {α β : Type} [DecidableEq α] (k : α) (v : β)
    (l : List (α × β)) : dlookup k (dinsert k v l) = some v := by
  induction l with
  | nil => simp [dinsert, dlookup]
  | cons q l ih =>
    by_cases h : q.1 = k
    · simp [dinsert, dlookup, h]
    · simp [dinsert, dlookup, h, ih]

theorem dlookup_eq_none_of_not_mem_keys {α β : Type} [DecidableEq α] (k : α)
    (l : List (α × β)) (h : k ∉ l.map Prod.fst) : dlookup k l = none := by
  induction l with
  | nil => simp [dlookup]
  | cons q l ih =>
    simp only [List.map_cons, List.mem_cons, not_or] at h
    have hq : q.1 ≠ k := fun he => h.1 he.symm
    simp [dlookup, hq, ih h.2]

theorem dlookup_derase_self {α β : Type} [DecidableEq α] (k : α)
    (l : List (α × β)) (h : keysNodup l) : dlookup k (derase k l) = none := by
  induction l with
  | nil => simp [derase, dlookup]
  | cons q l ih =>
    unfold keysNodup at h
    simp only [List.map_cons, List.nodup_cons] at h
    by_cases hq : q.1 = k
    · simp only [derase, hq, if_pos rfl]
      exact dlookup_eq_none_of_not_mem_keys k l (hq ▸ h.1)
    · simp [derase, hq, dlookup, ih h.2]

theorem dlookup_derase_ne {α β : Type} [DecidableEq α] (k k2 : α)
    (l : List (α × β)) (h : k ≠ k2) : dlookup k (derase k2 l) = dlookup k l := by
  induction l with
  | nil => simp [derase]
  | cons q l ih =>
    by_cases hq : q.1 = k2
    · have hqk : q.1 ≠ k := fun he => h (he.symm.trans hq)
      show dlookup k (if q.1 = k2 then l else q :: derase k2 l) = dlookup k (q :: l)
      rw [if_pos hq]
      show dlookup k l = dlookup k (q :: l)
      rw [show dlookup k (q :: l) = dlookup k l by simp [dlookup, hqk]]
    · show dlookup k (if q.1 = k2 then l else q :: derase k2 l) = dlookup k (q :: l)
      rw [if_neg hq]
      by_cases hk : q.1 = k
      · simp [dlookup, hk]
      · simp [dlookup, hk, ih]

theorem dlookup_none_derase {α β : Type} [DecidableEq α] (k k2 : α)
    (l : List (α × β)) (h : dlookup k l = none) : dlookup k (derase k2 l) = none := by
  induction l with
  | nil => simp [derase, dlookup]
  | cons q l ih =>
    simp only [dlookup] at h
    by_cases hk : q.1 = k
    · simp [hk] at h
    · simp only [if_neg hk] at h
      by_cases hq : q.1 = k2
      · simp [derase, hq, h]
      · simp [derase, hq, dlookup, hk, ih h]

theorem derase_sublist {α β : Type} [DecidableEq α] (k : α) (l : List (α × β)) :
    List.Sublist (derase k l) l := by
  induction l with
  | nil => simp [derase]
  | cons q l ih =>
    by_cases hq : q.1 = k
    · rw [show derase k (q :: l) = l by simp [derase, hq]]
      exact List.sublist_cons_of_sublist q (List.Sublist.refl l)
    · rw [show derase k (q :: l) = q :: derase k l by simp [derase, hq]]
      exact List.Sublist.cons₂ q ih

theorem keysNodup_derase {α β : Type} [DecidableEq α] (k : α)
    (l : List (α × β)) (h : keysNodup l) : keysNodup (derase k l) := by
  unfold keysNodup at *
  exact List.Nodup.sublist (List.Sublist.map Prod.fst (derase_sublist k l)) h

theorem dlookup_mem {α β : Type} [DecidableEq α] {k : α} {v : β}
    {l : List (α × β)} (h : dlookup k l = some v) : (k, v) ∈ l := by
  induction l with
  | nil => simp [dlookup] at h
  | cons q l ih =>
    by_cases hq : q.1 = k
    · simp only [dlookup, if_pos hq, Option.some.injEq] at h
      have : q = (k, v) := by
        obtain ⟨q1, q2⟩ := q
        simp only at hq h
        rw [hq, h]
      exact this ▸ List.mem_cons_self q l
    · simp only [dlookup, if_neg hq] at h
      exact List.mem_cons_of_mem q (ih h)

theorem mem_dlookup {α β : Type} [DecidableEq α] {k : α} {v : β}
    {l : List (α × β)} (hnd : keysNodup l) (h : (k, v) ∈ l) :
    dlookup k l = some v := by
  induction l with
  | nil => simp at h
  | cons q l ih =>
    unfold keysNodup at hnd
    simp only [List.map_cons, List.nodup_cons] at hnd
    rcases List.mem_cons.mp h with he | hm
    · simp [dlookup, ← he]
    · have hq : q.1 ≠ k := by
        intro he2
        exact hnd.1 (he2 ▸ List.mem_map_of_mem Prod.fst hm)
      simp [dlookup, hq, ih hnd.2 hm]

theorem dlookup_eraseKeys_not_mem {α β : Type} [DecidableEq α] (k : α)
    (ks : List α) (l : List (α × β)) (h : k ∉ ks) :
    dlookup k (eraseKeys ks l) = dlookup k l := by
  induction ks generalizing l with
  | nil => simp [eraseKeys]
  | cons k2 ks ih =>
    simp only [List.mem_cons, not_or] at h
    show dlookup k (eraseKeys ks (derase k2 l)) = dlookup k l
    rw [ih (derase k2 l) h.2, dlookup_derase_ne k k2 l h.1]

theorem dlookup_none_eraseKeys {α β : Type} [DecidableEq α] (k : α)
    (ks : List α) (l : List (α × β)) (h : dlookup k l = none) :
    dlookup k (eraseKeys ks l) = none := by
  induction ks generalizing l with
  | nil => simpa [eraseKeys] using h
  | cons k2 ks ih =>
    show dlookup k (eraseKeys ks (derase k2 l)) = none
    exact ih (derase k2 l) (dlookup_none_derase k k2 l h)

theorem dlookup_eraseKeys_mem {α β : Type} [DecidableEq α] (k : α)
    (ks : List α) (l : List (α × β)) (hnd : keysNodup l) (h : k ∈ ks) :
    dlookup k (eraseKeys ks l) = none := by
  induction ks generalizing l with
  | nil => simp at h
  | cons k2 ks ih =>
    show dlookup k (eraseKeys ks (derase k2 l)) = none
    by_cases he : k = k2
    · exact dlookup_none_eraseKeys k ks (derase k2 l)
        (he ▸ dlookup_derase_self k l hnd)
    · rcases List.mem_cons.mp h with h1 | h2
      · exact absurd h1 he
      · exact ih (derase k2 l) (keysNodup_derase k2 l hnd) h2

theorem eraseKeys_cons_of_ne {α β : Type} [DecidableEq α] (ks : List α)
    (q : α × β) (l : List (α × β)) (h : ∀ k ∈ ks, k ≠ q.1) :
    eraseKeys ks (q :: l) = q :: eraseKeys ks l := by
  induction ks generalizing l with
  | nil => simp [eraseKeys]
  | cons k2 ks ih =>
    have hk2 : q.1 ≠ k2 := fun he => (h k2 (List.mem_cons_self k2 ks)) he.symm
    show eraseKeys ks (derase k2 (q :: l)) = q :: eraseKeys ks (derase k2 l)
    rw [show derase k2 (q :: l) = q :: derase k2 l by simp [derase, hk2]]
    exact ih (derase k2 l) (fun k hk => h k (List.mem_cons_of_mem k2 hk))

theorem eraseKeys_filter_keys {α β : Type} [DecidableEq α]
    (p : α × β → Bool) (l : List (α × β)) (hnd : keysNodup l) :
    eraseKeys ((l.filter p).map Prod.fst) l = l.filter (fun x => !(p x)) := by
  induction l with
  | nil => simp [eraseKeys]
  | cons q l ih =>
    unfold keysNodup at hnd
    simp only [List.map_cons, List.nodup_cons] at hnd
    by_cases hp : p q
    · rw [show (q :: l).filter p = q :: l.filter p by rw [List.filter_cons, if_pos hp]]
      simp only [List.map_cons]
      show eraseKeys ((l.filter p).map Prod.fst) (derase q.1 (q :: l))
          = (q :: l).filter (fun x => !(p x))
      rw [show derase q.1 (q :: l) = l by simp [derase]]
      rw [ih hnd.2]
      rw [List.filter_cons]
      simp [hp]
    · rw [show (q :: l).filter p = l.filter p by rw [List.filter_cons, if_neg hp]]
      rw [eraseKeys_cons_of_ne _ q l ?hne]
      · rw [ih hnd.2]
        rw [List.filter_cons]
        simp [hp]
      case hne =>
        intro k hk he
        apply hnd.1
        have : k ∈ l.map Prod.fst :=
          List.Sublist.mem hk (List.Sublist.map Prod.fst (List.filter_sublist l))
        exact he ▸ this

theorem filter_not_filter_nil {α : Type} (p : α → Bool) (l : List α) :
    (l.filter (fun x => !(p x))).filter p = [] := by
  induction l with
  | nil => simp
  | cons x l ih =>
    by_cases hp : p x
    · rw [List.filter_cons, if_neg (by simp [hp])]
      exact ih
    · rw [List.filter_cons, if_pos (by simp [hp])]
      rw [List.filter_cons, if_neg (by simp [hp])]
      exact ih

theorem filter_length_partition {α : Type} (p : α → Bool) (l : List α) :
    (l.filter p).length + (l.filter (fun x => !(p x))).length = l.length := by
  induction l with
  | nil => simp
  | cons x l ih =>
    by_cases hp : p x
    · rw [List.filter_cons, List.filter_cons, if_pos hp, if_neg (by simp [hp])]
      simp only [List.length_cons]
      omega
    · rw [List.filter_cons, List.filter_cons, if_neg hp, if_pos (by simp [hp])]
      simp only [List.length_cons]
      omega

theorem keysNodup_filter {α β : Type} (p : α × β → Bool)
    (l : List (α × β)) (h : keysNodup l) : keysNodup (l.filter p) := by
  unfold keysNodup at *
  exact List.Nodup.sublist (List.Sublist.map Prod.fst (List.filter_sublist l)) h

/-! ## RateLimiter (src/bot.py lines 57-74) -/

/-- State of the RateLimiter class: the limits given to the constructor and
the defaultdict mapping each user to the list of recent admission times. -/
structure RateLimiter where
  max_messages : Nat
  time_window : Int
  user_messages : List (UserId × List Time)
deriving DecidableEq

/-- The list self.user_messages[user_id]; the defaultdict yields the empty
list for an unseen user. -/
def userTimes (rl : RateLimiter) (uid : UserId) : List Time :=
  (dlookup uid rl.user_messages).getD []

/-- The retained timestamps after line 69 discards entries with
now - t >= time_window. -/
def prunedTimes (rl : RateLimiter) (uid : UserId) (now : Time) : List Time :=
  (userTimes rl uid).filter (fun t => decide (now - t < rl.time_window))

/-- RateLimiter.is_allowed (lines 64-74): prune the per-user window, then
admit and append now iff the retained count is below max_messages. -/
def RateLimiter.is_allowed (rl : RateLimiter) (uid : UserId) (now : Time) :
    Bool × RateLimiter :=
  let pruned := prunedTimes rl uid now
  if pruned.length < rl.max_messages then
    (true, { rl with user_messages := dinsert uid (pruned ++ [now]) rl.user_messages })
  else
    (false, { rl with user_messages := dinsert uid pruned rl.user_messages })

/-- C1: every call to is_allowed first discards the timestamps of that user
older than time_window; it admits (appending now, returning true) iff the
retained count is below max_messages and otherwise returns false leaving the
retained list as it was; consequently a user whose whole window is full is
refused, and a user all of whose entries have aged past the window is
admitted again. -/
theorem c1_rate_limiter_admission (rl : RateLimiter) (uid : UserId) (now : Time) :
    ((RateLimiter.is_allowed rl uid now).1 = true
        ↔ (prunedTimes rl uid now).length < rl.max_messages)
    ∧ dlookup uid (RateLimiter.is_allowed rl uid now).2.user_messages
        = some (if (prunedTimes rl uid now).length < rl.max_messages
                then prunedTimes rl uid now ++ [now] else prunedTimes rl uid now)
    ∧ ((∀ t ∈ userTimes rl uid, now - t < rl.time_window)
        → (userTimes rl uid).length = rl.max_messages
        → (RateLimiter.is_allowed rl uid now).1 = false)
    ∧ ((∀ t ∈ userTimes rl uid, rl.time_window ≤ now - t)
        → 0 < rl.max_messages
        → (RateLimiter.is_allowed rl uid now).1 = true) := by
  refine ⟨?_, ?_, ?_, ?_⟩
  · by_cases h : (prunedTimes rl uid now).length < rl.max_messages
    · simp [RateLimiter.is_allowed, h]
    · simp [RateLimiter.is_allowed, h]
  · by_cases h : (prunedTimes rl uid now).length < rl.max_messages
    · simp [RateLimiter.is_allowed, h, dlookup_dinsert_self]
    · simp [RateLimiter.is_allowed, h, dlookup_dinsert_self]
  · intro hall hlen
    have hpr : prunedTimes rl uid now = userTimes rl uid := by
      unfold prunedTimes
      exact List.filter_eq_self.mpr (fun t ht => by simpa using hall t ht)
    have : ¬ (prunedTimes rl uid now).length < rl.max_messages := by
      rw [hpr, hlen]
      exact lt_irrefl _
    simp [RateLimiter.is_allowed, this]
  · intro hall hpos
    have hpr : prunedTimes rl uid now = [] := by
      unfold prunedTimes
      refine List.filter_eq_nil_iff.mpr (fun t ht => ?_)
      simpa using not_lt.mpr (hall t ht)
    have : (prunedTimes rl uid now).length < rl.max_messages := by
      rw [hpr]
      exact hpos
    simp [RateLimiter.is_allowed, this]

/-- Concrete rate limiter used by the C1 witness: window of 60 seconds, at
most 2 messages, user 1 already admitted at times 0 and 10. -/
def rlW : RateLimiter :=
  { max_messages := 2, time_window := 60, user_messages := [(1, [0, 10])] }

/-- Witness for C1: with both retained timestamps inside the window and the
window full, the next attempt at time 30 is refused. -/
theorem c1_rate_limiter_admission_witness :
    (∀ t ∈ userTimes rlW 1, (30 : Int) - t < rlW.time_window)
    ∧ (userTimes rlW 1).length = rlW.max_messages
    ∧ (RateLimiter.is_allowed rlW 1 30).1 = false :=
  ⟨by decide, by decide, (c1_rate_limiter_admission rlW 1 30).2.2.1 (by decide) (by decide)⟩

/-! ## Data model (src/bot.py lines 44-115)

The in-process state of the bot: the UserSession dataclass, the UserManager
maps, the module-level admin_reply_targets dict, the RateLimiter instance
and the three sqlite tables, gathered in one record so that each handler is
a state transition. -/

/-- The value stored under the last_message key of conversation_data by
handle_user_message (lines 395-400). -/
structure LastMsg where
  text : String
  timestamp : Time
  message_id : Int
  kind : String
deriving DecidableEq

/-- The UserSession dataclass (lines 47-55). -/
structure UserSession where
  user_id : Int
  username : String
  first_name : String
  active_since : Time
  message_ids : List Int
  conversation_data : List (String × LastMsg)
  last_activity : Time
deriving DecidableEq

/-- A row of the user_sessions table (lines 86-95). -/
structure DBSessionRow where
  username : String
  first_name : String
  session_data : String
  last_activity : Time
deriving DecidableEq

/-- A row of the message_history table (lines 96-105); rows are kept in
insertion order, which coincides with timestamp order. -/
structure HistoryRow where
  user_id : Int
  message_id : Int
  chat_id : Int
  message_type : String
deriving DecidableEq

/-- A row of the admin_logs table (lines 106-114). -/
structure AuditEntry where
  admin_id : Int
  action : String
  target_user_id : Option Int
deriving DecidableEq

/-- The whole mutable state of the process: UserManager.active_users,
UserManager.admin_reply_timeouts, the module-level admin_reply_targets,
the RateLimiter and the three sqlite tables. nextMsgId models the message
identifiers the transport assigns to outbound sends. -/
structure BotState where
  active_users : List (UserId × UserSession)
  admin_reply_timeouts : List (UserId × Time)
  admin_reply_targets : List (UserId × UserId)
  rate : RateLimiter
  user_sessions : List (UserId × DBSessionRow)
  message_history : List HistoryRow
  admin_logs : List AuditEntry
  nextMsgId : Int
deriving DecidableEq

/-- The user_data dict passed to get_user_session (lines 370-373); both
keys are always present at the call sites. -/
structure Profile where
  username : String
  first_name : String
deriving DecidableEq

/-- The closed variant of inbound message shapes the handlers branch on:
message.text, .photo, .document, .voice, .video, .audio, and everything
else. Media constructors carry message.caption. -/
inductive Content
  | text (s : String)
  | photo (caption : Option String)
  | document (caption : Option String)
  | voice (caption : Option String)
  | video (caption : Option String)
  | audio (caption : Option String)
  | unsupported (caption : Option String)
deriving DecidableEq

/-- True for the six shapes that handle_admin_reply has a sending branch
for (lines 545-585). -/
def Content.isSupported : Content → Bool
  | .unsupported _ => false
  | _ => true

/-- Python truthiness chain s or d, where an empty string is falsy. -/
def truthyOr (s : Option String) (d : String) : String :=
  match s with
  | some t => if t = "" then d else t
  | none => d

/-- The expression message.text or message.caption or a media placeholder
(line 396). -/
def Content.lastMessageText : Content → String
  | .text s => truthyOr (some s) "[Media]"
  | .photo c | .document c | .voice c | .video c | .audio c | .unsupported c =>
      truthyOr c "[Media]"

/-- The expression at line 399: the kind tag is text exactly when
message.text is truthy. -/
def Content.lastMessageKind : Content → String
  | .text s => if s = "" then "media" else "text"
  | _ => "media"

/-- An outbound action performed by a handler, in order of execution.
Constructors that model a send carry their destination chat; ok flags
record whether the transport accepted the call. -/
inductive Effect
  | throttleNotice (chat : Int) (message_id : Int)
  | replyFromGroupNotice (chat : Int) (message_id : Int)
  | notifyGroupAttempt (chat : Int) (ok : Bool)
  | receiptToUser (chat : Int) (message_id : Int)
  | attemptReplyToTarget (target : Int) (ok : Bool)
  | confirmReplySent (chat : Int) (admin_id : Int)
  | surfaceSendFailure (chat : Int) (admin_id : Int)
  | deleteMessageAttempt (chat : Int) (message_id : Int) (ok : Bool)
  | editDeleteSummary (deleted : Nat) (failed : Nat)
  | notifyConversationEnded (target : Int)
  | answerUnauthorized (caller : Int)
  | answerCallback (caller : Int)
  | editReplyModeActivated (target : Int)
  | editContinuePrompt (target : Int)
  | editReplyEnded (target : Int)
  | editDeleteConfirm (target : Int)
  | editDeleteCancelled
  | editUserInfo (target : Int)
  | editBlockPlaceholder (target : Int)
  | rejectUnauthorized (caller : Int)
  | cancelledReplyNotice (caller : Int)
  | noActiveReplyNotice (caller : Int)
  | broadcastAttempt (target : Int) (ok : Bool)
  | broadcastSummary (success : Nat) (failed : Nat)
  | broadcastUsage (caller : Int)
  | cleanupSummary (users : Nat) (replies : Nat)
  | statsReport (caller : Int)
deriving DecidableEq

/-- The chat a send-like effect is delivered to; none for message edits and
callback answers, which address an existing message rather than a chat. -/
def Effect.recipient : Effect → Option Int
  | .throttleNotice chat _ => some chat
  | .replyFromGroupNotice chat _ => some chat
  | .notifyGroupAttempt chat _ => some chat
  | .receiptToUser chat _ => some chat
  | .attemptReplyToTarget t _ => some t
  | .confirmReplySent chat _ => some chat
  | .surfaceSendFailure chat _ => some chat
  | .deleteMessageAttempt chat _ _ => some chat
  | .notifyConversationEnded t => some t
  | .broadcastAttempt t _ => some t
  | _ => none

/-- True for the effect modelling the send of an operator reply to its
target user. -/
def Effect.isReplyAttempt : Effect → Bool
  | .attemptReplyToTarget _ _ => true
  | _ => false

/-- True for the effect modelling one bot.delete_message call. -/
def Effect.isDeleteAttempt : Effect → Bool
  | .deleteMessageAttempt _ _ _ => true
  | _ => false

/-! ## UserManager and helpers (src/bot.py lines 76-210) -/

/-- Draw the message identifier the transport assigns to the next outbound
send. -/
def fresh (st : BotState) : Int × BotState :=
  (st.nextMsgId, { st with nextMsgId := st.nextMsgId + 1 })

/-- is_admin (lines 208-210): membership in the configured ADMIN_IDS. -/
def is_admin (admins : List Int) (user_id : Int) : Bool :=
  admins.contains user_id

/-- UserManager.get_user_session (lines 117-142): create a session with
active_since = last_activity = now for an unseen user (also inserting a
durable user_sessions row), else refresh last_activity in place. -/
def get_user_session (now : Time) (user_id : UserId) (user_data : Profile)
    (st : BotState) : UserSession × BotState :=
  match dlookup user_id st.active_users with
  | none =>
      let s : UserSession :=
        { user_id := user_id
          username := user_data.username
          first_name := user_data.first_name
          active_since := now
          message_ids := []
          conversation_data := []
          last_activity := now }
      (s, { st with
              active_users := dinsert user_id s st.active_users
              user_sessions := dinsert user_id
                { username := user_data.username
                  first_name := user_data.first_name
                  session_data := "\x7b\x7d"
                  last_activity := now } st.user_sessions })
  | some s =>
      let s2 := { s with last_activity := now }
      (s2, { st with active_users := dinsert user_id s2 st.active_users })

/-- UserManager.store_message_id (lines 144-154): append to the session
message_ids when the session is live, and always append a durable
message_history row. -/
def store_message_id (user_id : UserId) (message_id chat_id : Int)
    (message_type : String) (st : BotState) : BotState :=
  let st1 :=
    match dlookup user_id st.active_users with
    | some s =>
        let s2 := { s with message_ids := s.message_ids ++ [message_id] }
        { st with active_users := dinsert user_id s2 st.active_users }
    | none => st
  let row : HistoryRow :=
    { user_id := user_id, message_id := message_id, chat_id := chat_id,
      message_type := message_type }
  { st1 with message_history := st1.message_history ++ [row] }

/-- UserManager.log_admin_action (lines 156-162): append an admin_logs
row. -/
def log_admin_action (admin_id : Int) (action : String)
    (target_user_id : Option Int) (st : BotState) : BotState :=
  { st with admin_logs :=
      st.admin_logs ++
        [{ admin_id := admin_id, action := action, target_user_id := target_user_id }] }

/-- UserManager.set_admin_reply_timeout (lines 168-170). -/
def set_admin_reply_timeout (admin_id : Int) (now : Time) (st : BotState) : BotState :=
  { st with admin_reply_timeouts := dinsert admin_id now st.admin_reply_timeouts }

/-- UserManager.check_reply_timeouts (lines 172-186): collect the admins
whose reply mode started more than timeout_minutes * 60 seconds ago, delete
each from admin_reply_targets (when present) and admin_reply_timeouts, and
return how many expired. The result is the new timeouts map, the new
targets map and the count. -/
def check_reply_timeouts (timeout_minutes : Int) (now : Time)
    (timeouts : List (UserId × Time)) (targets : List (UserId × UserId)) :
    List (UserId × Time) × List (UserId × UserId) × Nat :=
  let expired :=
    (timeouts.filter (fun pr => decide (now - pr.2 > timeout_minutes * 60))).map Prod.fst
  (eraseKeys expired timeouts, eraseKeys expired targets, expired.length)

/-- UserManager.cleanup_inactive_users (lines 188-202): drop from memory
every session whose last_activity is more than hours_threshold * 3600
seconds old and return the count removed. -/
def cleanup_inactive_users (hours_threshold : Int) (now : Time)
    (active : List (UserId × UserSession)) : List (UserId × UserSession) × Nat :=
  let inactive :=
    (active.filter
      (fun pr => decide (now - pr.2.last_activity > hours_threshold * 3600))).map Prod.fst
  (eraseKeys inactive active, inactive.length)

/-! ## Handlers (src/bot.py lines 355-972) -/

/-- handle_admin_reply (lines 532-623): look up the reply target of the
admin; do nothing without one (or on the falsy target 0). For a supported
content shape attempt the send to the target: on success confirm to the
admin and append a replied_to_user audit row keeping the route; on a
transport error surface the failure to the admin and delete the route. An
unsupported shape matches no sending branch, yet still confirms and logs.
deliverOk states whether the transport accepts the send to the target. -/
def handle_admin_reply (chat : Int) (admin_id : Int) (c : Content)
    (deliverOk : Bool) (st : BotState) : BotState × List Effect :=
  match dlookup admin_id st.admin_reply_targets with
  | none => (st, [])
  | some target =>
      if target = 0 then (st, [])
      else if c.isSupported then
        if deliverOk then
          (log_admin_action admin_id "replied_to_user" (some target) st,
           [Effect.attemptReplyToTarget target true,
            Effect.confirmReplySent chat admin_id])
        else
          ({ st with admin_reply_targets := derase admin_id st.admin_reply_targets },
           [Effect.attemptReplyToTarget target false,
            Effect.surfaceSendFailure chat admin_id])
      else
        (log_admin_action admin_id "replied_to_user" (some target) st,
         [Effect.confirmReplySent chat admin_id])

/-- Store the last_message snapshot into the conversation_data of the live
session of a user (lines 395-400). -/
def setLastMessage (user_id : UserId) (lm : LastMsg) (st : BotState) : BotState :=
  match dlookup user_id st.active_users with
  | none => st
  | some s =>
      let s2 := { s with conversation_data := dinsert "last_message" lm s.conversation_data }
      { st with active_users := dinsert user_id s2 st.active_users }

/-- handle_user_message (lines 355-530): rate-limit first (a refusal sends
a throttle notice and stores its id), then get or create the session; in
the group chat dispatch to handle_admin_reply when the sender is an admin
in reply mode and otherwise ignore the message; in private, an admin in
reply mode is told to reply from the group; otherwise snapshot the message
into conversation_data, attempt the notification to the group (a transport
error is logged and swallowed) and send the receipt to the user.
groupSendOk states whether the group notification is accepted, deliverOk is
passed through to handle_admin_reply. -/
def handle_user_message (admins : List Int) (group_id chat_id : Int)
    (user_id : UserId) (user_data : Profile) (in_message_id : Int) (c : Content)
    (now : Time) (groupSendOk deliverOk : Bool) (st : BotState) :
    BotState × List Effect :=
  let p := RateLimiter.is_allowed st.rate user_id now
  let st1 := { st with rate := p.2 }
  if !p.1 then
    let f := fresh st1
    (store_message_id user_id f.1 chat_id "text" f.2,
     [Effect.throttleNotice chat_id f.1])
  else
    let q := get_user_session now user_id user_data st1
    let st2 := q.2
    if chat_id = group_id then
      if is_admin admins user_id && (dlookup user_id st2.admin_reply_targets).isSome then
        handle_admin_reply chat_id user_id c deliverOk st2
      else
        (st2, [])
    else if is_admin admins user_id
        && (dlookup user_id st2.admin_reply_targets).isSome then
      let f := fresh st2
      (store_message_id user_id f.1 chat_id "text" f.2,
       [Effect.replyFromGroupNotice chat_id f.1])
    else
      let lm : LastMsg :=
        { text := c.lastMessageText
          timestamp := now
          message_id := in_message_id
          kind := c.lastMessageKind }
      let st3 := setLastMessage user_id lm st2
      let f := fresh st3
      (store_message_id user_id f.1 chat_id "text" f.2,
       [Effect.notifyGroupAttempt group_id groupSendOk,
        Effect.receiptToUser chat_id f.1])

/-- The database fetch at lines 631-635 of delete_user_chat: the stored
message rows of one user, most recent first (SELECT ... ORDER BY timestamp
DESC over rows kept in insertion order). -/
def userRows (user_id : UserId) (st : BotState) : List HistoryRow :=
  (st.message_history.filter (fun r => decide (r.user_id = user_id))).reverse

/-- delete_user_chat (lines 625-703): fetch the stored message rows of the
user most recent first, attempt to delete each one counting successes and
failures independently, purge the durable message_history rows, drop the
live session, clear the first admin reply route whose target is the user
(together with its timeout), edit the summary into the callback message,
notify the user best-effort and append a deleted_user_chat audit row.
deleteOk states per (chat, message) whether the transport deletion
succeeds. -/
def delete_user_chat (admin_id : Int) (user_id : UserId)
    (deleteOk : Int → Int → Bool) (st : BotState) : BotState × List Effect :=
  let msgs := userRows user_id st
  let attempts := msgs.map
    (fun r => Effect.deleteMessageAttempt r.chat_id r.message_id
      (deleteOk r.chat_id r.message_id))
  let deleted_count := (msgs.filter (fun r => deleteOk r.chat_id r.message_id)).length
  let failed_count := (msgs.filter (fun r => !(deleteOk r.chat_id r.message_id))).length
  let st1 := { st with message_history :=
      st.message_history.filter (fun r => !(decide (r.user_id = user_id))) }
  let st2 := { st1 with active_users := derase user_id st1.active_users }
  let cleared := (st2.admin_reply_targets.find? (fun pr => decide (pr.2 = user_id))).map Prod.fst
  let st3 :=
    match cleared with
    | some adm =>
        if adm = 0 then st2
        else
          { st2 with
              admin_reply_targets := derase adm st2.admin_reply_targets
              admin_reply_timeouts := derase adm st2.admin_reply_timeouts }
    | none => st2
  let st4 := log_admin_action admin_id "deleted_user_chat" (some user_id) st3
  (st4, attempts ++
    [Effect.editDeleteSummary deleted_count failed_count,
     Effect.notifyConversationEnded user_id])

/-- The parsed callback_data strings of the inline keyboards. -/
inductive CallbackData
  | reply (user_id : UserId)
  | cont (user_id : UserId)
  | end_reply (user_id : UserId)
  | delete (user_id : UserId)
  | confirm_delete (user_id : UserId)
  | cancel_delete
  | info (user_id : UserId)
  | block (user_id : UserId)
deriving DecidableEq

/-- handle_callback (lines 705-867): reject a non-admin caller with an
unauthorized answer and no mutation; otherwise answer the callback and
dispatch. The reply action binds the route and stamps its timeout; the
end_reply action unbinds both and logs; confirm_delete runs
delete_user_chat; the remaining actions only edit messages. -/
def handle_callback (admins : List Int) (admin_id : Int) (d : CallbackData)
    (deleteOk : Int → Int → Bool) (now : Time) (st : BotState) :
    BotState × List Effect :=
  if !(is_admin admins admin_id) then
    (st, [Effect.answerUnauthorized admin_id])
  else
    let ans := Effect.answerCallback admin_id
    match d with
    | .reply user_id =>
        let st1 := set_admin_reply_timeout admin_id now
          { st with admin_reply_targets := dinsert admin_id user_id st.admin_reply_targets }
        (st1, [ans, Effect.editReplyModeActivated user_id])
    | .cont user_id => (st, [ans, Effect.editContinuePrompt user_id])
    | .end_reply user_id =>
        let st1 :=
          { st with
              admin_reply_targets := derase admin_id st.admin_reply_targets
              admin_reply_timeouts := derase admin_id st.admin_reply_timeouts }
        (log_admin_action admin_id "ended_reply_mode" (some user_id) st1,
         [ans, Effect.editReplyEnded user_id])
    | .delete user_id => (st, [ans, Effect.editDeleteConfirm user_id])
    | .confirm_delete user_id =>
        let r := delete_user_chat admin_id user_id deleteOk st
        (r.1, ans :: r.2)
    | .cancel_delete => (st, [ans, Effect.editDeleteCancelled])
    | .info user_id => (st, [ans, Effect.editUserInfo user_id])
    | .block user_id => (st, [ans, Effect.editBlockPlaceholder user_id])

/-- cancel_command (lines 869-898): a non-admin caller is silently ignored;
an admin in reply mode has the route and timeout removed with a notice and
an audit row, otherwise an informational notice is sent. -/
def cancel_command (admins : List Int) (user_id : Int) (st : BotState) :
    BotState × List Effect :=
  if !(is_admin admins user_id) then (st, [])
  else
    match dlookup user_id st.admin_reply_targets with
    | some target =>
        let st1 :=
          { st with
              admin_reply_targets := derase user_id st.admin_reply_targets
              admin_reply_timeouts := derase user_id st.admin_reply_timeouts }
        (log_admin_action user_id "cancelled_reply_mode" (some target) st1,
         [Effect.cancelledReplyNotice user_id])
    | none => (st, [Effect.noActiveReplyNotice user_id])

/-- stats_command (lines 900-928): only reads state; a non-admin caller is
rejected. -/
def stats_command (admins : List Int) (user_id : Int) (st : BotState) :
    BotState × List Effect :=
  if !(is_admin admins user_id) then (st, [Effect.rejectUnauthorized user_id])
  else (st, [Effect.statsReport user_id])

/-- cleanup_command (lines 331-353): a non-admin caller is rejected; an
admin runs cleanup_inactive_users with the default 24 hour threshold and
check_reply_timeouts with 30 minutes, reports the counts and logs. -/
def cleanup_command (admins : List Int) (user_id : Int) (now : Time)
    (st : BotState) : BotState × List Effect :=
  if !(is_admin admins user_id) then (st, [Effect.rejectUnauthorized user_id])
  else
    let c1 := cleanup_inactive_users 24 now st.active_users
    let c2 := check_reply_timeouts 30 now st.admin_reply_timeouts st.admin_reply_targets
    (log_admin_action user_id "cleanup_users" none
      { st with
          active_users := c1.1
          admin_reply_timeouts := c2.1
          admin_reply_targets := c2.2.1 },
     [Effect.cleanupSummary c1.2 c2.2.2])

/-- broadcast_command (lines 930-972): a non-admin caller is rejected;
empty arguments produce a usage notice; otherwise one send per live session
key with per-user failures counted independently, then a tally reply and an
audit row. sendOk states per user whether the transport accepts the
send. -/
def broadcast_command (admins : List Int) (user_id : Int) (args : List String)
    (sendOk : UserId → Bool) (st : BotState) : BotState × List Effect :=
  if !(is_admin admins user_id) then (st, [Effect.rejectUnauthorized user_id])
  else if args.isEmpty then (st, [Effect.broadcastUsage user_id])
  else
    let uids := st.active_users.map Prod.fst
    let fx := uids.map (fun uid => Effect.broadcastAttempt uid (sendOk uid))
    let s := (uids.filter (fun uid => sendOk uid)).length
    let f := (uids.filter (fun uid => !(sendOk uid))).length
    (log_admin_action user_id "broadcast_message" none st,
     fx ++ [Effect.broadcastSummary s f])

/-- The empty process state used by concrete runs. -/
def st0 : BotState :=
  { active_users := []
    admin_reply_timeouts := []
    admin_reply_targets := []
    rate := { max_messages := 10, time_window := 60, user_messages := [] }
    user_sessions := []
    message_history := []
    admin_logs := []
    nextMsgId := 100 }

/-! ## Frame lemmas -/

theorem get_user_session_frame (now : Time) (user_id : UserId) (user_data : Profile)
    (st : BotState) :
    (get_user_session now user_id user_data st).2.admin_reply_targets = st.admin_reply_targets
    ∧ (get_user_session now user_id user_data st).2.admin_reply_timeouts = st.admin_reply_timeouts
    ∧ (get_user_session now user_id user_data st).2.admin_logs = st.admin_logs
    ∧ (get_user_session now user_id user_data st).2.rate = st.rate
    ∧ (get_user_session now user_id user_data st).2.message_history = st.message_history
    ∧ (get_user_session now user_id user_data st).2.nextMsgId = st.nextMsgId := by
  cases h : dlookup user_id st.active_users <;>
    simp [get_user_session, h]

theorem store_message_id_frame (user_id : UserId) (message_id chat_id : Int)
    (message_type : String) (st : BotState) :
    (store_message_id user_id message_id chat_id message_type st).admin_reply_targets
        = st.admin_reply_targets
    ∧ (store_message_id user_id message_id chat_id message_type st).admin_reply_timeouts
        = st.admin_reply_timeouts
    ∧ (store_message_id user_id message_id chat_id message_type st).admin_logs
        = st.admin_logs
    ∧ (store_message_id user_id message_id chat_id message_type st).rate = st.rate := by
  cases h : dlookup user_id st.active_users <;>
    simp [store_message_id, h]

theorem setLastMessage_frame (user_id : UserId) (lm : LastMsg) (st : BotState) :
    (setLastMessage user_id lm st).admin_reply_targets = st.admin_reply_targets
    ∧ (setLastMessage user_id lm st).admin_reply_timeouts = st.admin_reply_timeouts
    ∧ (setLastMessage user_id lm st).admin_logs = st.admin_logs
    ∧ (setLastMessage user_id lm st).rate = st.rate
    ∧ (setLastMessage user_id lm st).nextMsgId = st.nextMsgId := by
  cases h : dlookup user_id st.active_users <;>
    simp [setLastMessage, h]

/-! ## Claim theorems -/

/-- C2: whenever the delivery of an operator reply to the target user
fails, the operator afterwards has no route, the failure is surfaced to the
operator, and the send was attempted exactly once (never retried). -/
theorem c2_failed_reply_unbinds (chat admin_id : Int) (c : Content)
    (deliverOk : Bool) (st : BotState) (t : Int)
    (hnd : keysNodup st.admin_reply_targets)
    (hmem : Effect.attemptReplyToTarget t false
        ∈ (handle_admin_reply chat admin_id c deliverOk st).2) :
    dlookup admin_id
        (handle_admin_reply chat admin_id c deliverOk st).1.admin_reply_targets = none
    ∧ Effect.surfaceSendFailure chat admin_id
        ∈ (handle_admin_reply chat admin_id c deliverOk st).2
    ∧ ((handle_admin_reply chat admin_id c deliverOk st).2.filter
        Effect.isReplyAttempt).length = 1 := by
  cases hr : dlookup admin_id st.admin_reply_targets with
  | none => simp [handle_admin_reply, hr] at hmem
  | some target =>
    by_cases h0 : target = 0
    · simp [handle_admin_reply, hr, h0] at hmem
    · by_cases hs : c.isSupported
      · cases hdel : deliverOk with
        | true => simp [handle_admin_reply, hr, h0, hs, hdel] at hmem
        | false =>
          refine ⟨?_, ?_, ?_⟩
          · simp only [handle_admin_reply, hr, if_neg h0, hs, if_pos, hdel,
              Bool.false_eq_true, if_false]
            exact dlookup_derase_self admin_id st.admin_reply_targets hnd
          · simp [handle_admin_reply, hr, h0, hs, hdel]
          · simp [handle_admin_reply, hr, h0, hs, hdel, Effect.isReplyAttempt]
      · simp [handle_admin_reply, hr, h0, hs] at hmem

/-- Concrete state for the C2 witness: operator 7 is bound to user 3. -/
def stC2 : BotState :=
  { st0 with admin_reply_targets := [(7, 3)], admin_reply_timeouts := [(7, 0)] }

/-- Witness for C2: a failed text reply from operator 7 leaves it without a
route, surfaces the failure and attempted the send exactly once. -/
theorem c2_failed_reply_unbinds_witness :
    keysNodup stC2.admin_reply_targets
    ∧ Effect.attemptReplyToTarget 3 false
        ∈ (handle_admin_reply (-100) 7 (Content.text "hi") false stC2).2
    ∧ (dlookup 7
          (handle_admin_reply (-100) 7 (Content.text "hi") false stC2).1.admin_reply_targets
            = none
        ∧ Effect.surfaceSendFailure (-100) 7
            ∈ (handle_admin_reply (-100) 7 (Content.text "hi") false stC2).2
        ∧ ((handle_admin_reply (-100) 7 (Content.text "hi") false stC2).2.filter
            Effect.isReplyAttempt).length = 1) :=
  ⟨by decide, by decide,
    c2_failed_reply_unbinds (-100) 7 (Content.text "hi") false stC2 3 (by decide) (by decide)⟩

/-- C10: an operator reply whose content matches none of the supported
shapes delivers nothing to the target, yet the operator still gets the
success confirmation, a replied_to_user audit row is appended and the route
stays bound. -/
theorem c10_unsupported_reply_confirms (chat admin_id : Int) (cap : Option String)
    (deliverOk : Bool) (st : BotState) (t : Int)
    (hr : dlookup admin_id st.admin_reply_targets = some t) (h0 : t ≠ 0) :
    (handle_admin_reply chat admin_id (Content.unsupported cap) deliverOk st).2
        = [Effect.confirmReplySent chat admin_id]
    ∧ (handle_admin_reply chat admin_id (Content.unsupported cap) deliverOk st).1.admin_reply_targets
        = st.admin_reply_targets
    ∧ (handle_admin_reply chat admin_id (Content.unsupported cap) deliverOk st).1.admin_logs
        = st.admin_logs ++
            [{ admin_id := admin_id, action := "replied_to_user", target_user_id := some t }] := by
  refine ⟨?_, ?_, ?_⟩ <;>
    simp [handle_admin_reply, hr, h0, Content.isSupported, log_admin_action]

/-- Witness for C10: operator 7 bound to user 3 sends an unsupported shape;
the confirmation fires, the log grows and the route survives. -/
theorem c10_unsupported_reply_confirms_witness :
    dlookup 7 stC2.admin_reply_targets = some 3
    ∧ ((handle_admin_reply (-100) 7 (Content.unsupported none) true stC2).2
        = [Effect.confirmReplySent (-100) 7]
      ∧ (handle_admin_reply (-100) 7 (Content.unsupported none) true stC2).1.admin_reply_targets
          = stC2.admin_reply_targets
      ∧ (handle_admin_reply (-100) 7 (Content.unsupported none) true stC2).1.admin_logs
          = stC2.admin_logs ++
              [{ admin_id := 7, action := "replied_to_user", target_user_id := some 3 }]) :=
  ⟨by decide,
    c10_unsupported_reply_confirms (-100) 7 none true stC2 3 (by decide) (by decide)⟩

/-- C8: get_user_session never fails; an unseen user gets a session with
active_since = last_activity = now and a second call for the same user
returns the same active_since with last_activity refreshed; an existing
session is returned with only last_activity changed. -/
theorem c8_get_or_create (user_id : UserId) (p q : Profile) (t1 t2 : Time)
    (st : BotState) :
    (dlookup user_id st.active_users = none →
        (get_user_session t1 user_id p st).1.active_since = t1
      ∧ (get_user_session t1 user_id p st).1.last_activity = t1
      ∧ (get_user_session t2 user_id q (get_user_session t1 user_id p st).2).1.active_since = t1
      ∧ (get_user_session t2 user_id q (get_user_session t1 user_id p st).2).1.last_activity = t2)
    ∧ (∀ s, dlookup user_id st.active_users = some s →
        (get_user_session t2 user_id q st).1 = { s with last_activity := t2 }) := by
  constructor
  · intro h
    refine ⟨?_, ?_, ?_, ?_⟩ <;>
      simp [get_user_session, h, dlookup_dinsert_self]
  · intro s hs
    simp [get_user_session, hs]

/-- Witness for C8: user 5 is unseen in the empty state; two calls at times
10 and 20 both report active_since 10. -/
theorem c8_get_or_create_witness :
    dlookup 5 st0.active_users = none
    ∧ ((get_user_session 10 5 ⟨"u", "Alice"⟩ st0).1.active_since = 10
      ∧ (get_user_session 10 5 ⟨"u", "Alice"⟩ st0).1.last_activity = 10
      ∧ (get_user_session 20 5 ⟨"u", "Alice"⟩
            (get_user_session 10 5 ⟨"u", "Alice"⟩ st0).2).1.active_since = 10
      ∧ (get_user_session 20 5 ⟨"u", "Alice"⟩
            (get_user_session 10 5 ⟨"u", "Alice"⟩ st0).2).1.last_activity = 20) :=
  ⟨by decide,
    (c8_get_or_create 5 ⟨"u", "Alice"⟩ ⟨"u", "Alice"⟩ 10 20 st0).1 (by decide)⟩

/-- Counterexample to C3: operator 7 claims user 3 at time 0 and sends a
successfully delivered reply (the handler takes no clock at all, so the
timeout stamp keeps the bind time); the sweep with the default 30 minute
timeout at time 1801 already removes the route, although fewer than 30
minutes have passed since the successful reply. -/
theorem c3_reply_refresh_cex :
    dlookup 7
        (check_reply_timeouts 30 1801
          (handle_admin_reply (-100) 7 (Content.text "hello") true
            (handle_callback [7] 7 (CallbackData.reply 3) (fun _ _ => true) 0 st0).1).1.admin_reply_timeouts
          (handle_admin_reply (-100) 7 (Content.text "hello") true
            (handle_callback [7] 7 (CallbackData.reply 3) (fun _ _ => true) 0 st0).1).1.admin_reply_targets).2.1
      = none
    ∧ (handle_admin_reply (-100) 7 (Content.text "hello") true
          (handle_callback [7] 7 (CallbackData.reply 3) (fun _ _ => true) 0 st0).1).1.admin_reply_timeouts
        = [(7, 0)]
    ∧ (1801 : Int) < 1000 + 30 * 60 := by
  refine ⟨by decide, by decide, by decide⟩

/-- C3 amended: a successfully delivered reply does not refresh the expiry
clock — handle_admin_reply leaves admin_reply_timeouts untouched in every
case — so the cleanup sweep expires a route exactly when more than
timeout_minutes have passed since the operator claimed the user, regardless
of intervening replies. -/
theorem c3_route_timeout_from_claim (chat admin_id : Int) (c : Content)
    (deliverOk : Bool) (st : BotState) (timeout_minutes now s : Int)
    (a2 r : Int) (timeouts : List (UserId × Time)) (targets : List (UserId × UserId))
    (hndT : keysNodup timeouts) (hndR : keysNodup targets)
    (hs : dlookup a2 timeouts = some s) (hr : dlookup a2 targets = some r) :
    (handle_admin_reply chat admin_id c deliverOk st).1.admin_reply_timeouts
        = st.admin_reply_timeouts
    ∧ (now - s > timeout_minutes * 60 →
        dlookup a2 (check_reply_timeouts timeout_minutes now timeouts targets).2.1 = none)
    ∧ (¬ (now - s > timeout_minutes * 60) →
        dlookup a2 (check_reply_timeouts timeout_minutes now timeouts targets).2.1 = some r) := by
  refine ⟨?_, ?_, ?_⟩
  · cases hl : dlookup admin_id st.admin_reply_targets with
    | none => simp [handle_admin_reply, hl]
    | some target =>
      by_cases h0 : target = 0
      · simp [handle_admin_reply, hl, h0]
      · by_cases hsup : c.isSupported <;> cases deliverOk <;>
          simp [handle_admin_reply, hl, h0, hsup, log_admin_action]
  · intro hex
    have hmem : (a2, s) ∈ timeouts := dlookup_mem hs
    have hfil : (a2, s) ∈ timeouts.filter
        (fun pr => decide (now - pr.2 > timeout_minutes * 60)) :=
      List.mem_filter.mpr ⟨hmem, by simpa using hex⟩
    have hks : a2 ∈ (timeouts.filter
        (fun pr => decide (now - pr.2 > timeout_minutes * 60))).map Prod.fst :=
      List.mem_map_of_mem Prod.fst hfil
    exact dlookup_eraseKeys_mem a2 _ targets hndR hks
  · intro hex
    have hnot : a2 ∉ (timeouts.filter
        (fun pr => decide (now - pr.2 > timeout_minutes * 60))).map Prod.fst := by
      intro hks
      rcases List.mem_map.mp hks with ⟨pr, hpr, hfst⟩
      have hprt := List.mem_filter.mp hpr
      have : dlookup a2 timeouts = some pr.2 := by
        have : (a2, pr.2) ∈ timeouts := by
          have := hprt.1
          rwa [show pr = (a2, pr.2) by rw [← hfst]] at this
        exact mem_dlookup hndT this
      rw [hs] at this
      have hs2 : pr.2 = s := by injection this.symm
      have := hprt.2
      rw [hs2] at this
      simp at this
      exact hex this
    calc dlookup a2 (check_reply_timeouts timeout_minutes now timeouts targets).2.1
        = dlookup a2 targets := dlookup_eraseKeys_not_mem a2 _ targets hnot
      _ = some r := hr

/-- Witness for C3 amended: operator 7 with bind stamp 0 and route to 3 is
expired by the sweep at 1801 but kept at 1800; a reply never changes the
stamp map. -/
theorem c3_route_timeout_from_claim_witness :
    keysNodup [((7 : Int), (0 : Int))] ∧ keysNodup [((7 : Int), (3 : Int))]
    ∧ dlookup 7 [((7 : Int), (0 : Int))] = some 0
    ∧ dlookup 7 [((7 : Int), (3 : Int))] = some 3
    ∧ ((handle_admin_reply (-100) 7 (Content.text "hi") true stC2).1.admin_reply_timeouts
          = stC2.admin_reply_timeouts
      ∧ ((1801 : Int) - 0 > 30 * 60 →
          dlookup 7 (check_reply_timeouts 30 1801 [((7 : Int), (0 : Int))]
            [((7 : Int), (3 : Int))]).2.1 = none)
      ∧ (¬ ((1801 : Int) - 0 > 30 * 60) →
          dlookup 7 (check_reply_timeouts 30 1801 [((7 : Int), (0 : Int))]
            [((7 : Int), (3 : Int))]).2.1 = some 3)) :=
  ⟨by decide, by decide, by decide, by decide,
    c3_route_timeout_from_claim (-100) 7 (Content.text "hi") true stC2 30 1801 0 7 3
      [((7 : Int), (0 : Int))] [((7 : Int), (3 : Int))]
      (by decide) (by decide) (by decide) (by decide)⟩

/-- Counterexample to C6: a non-operator invoking the cancel action is
ignored silently — the state is unchanged but no Unauthorized rejection
message is produced, although the claim promises one for every listed
action including cancel. -/
theorem c6_cancel_silent_cex :
    is_admin [7] 3 = false
    ∧ cancel_command [7] 3 st0 = (st0, []) := by
  refine ⟨by decide, by decide⟩

/-- C6 amended: every operator-only action invoked by an identity outside
the operator set leaves the whole state unchanged; the callback actions
(claim, delete, info and the rest) and the broadcast, stats and cleanup
commands reply with an Unauthorized rejection, while the cancel command
returns silently with no message at all. -/
theorem c6_unauthorized_no_mutation (admins : List Int) (caller : Int)
    (d : CallbackData) (deleteOk : Int → Int → Bool) (sendOk : UserId → Bool)
    (args : List String) (now : Time) (st : BotState)
    (h : is_admin admins caller = false) :
    handle_callback admins caller d deleteOk now st
        = (st, [Effect.answerUnauthorized caller])
    ∧ broadcast_command admins caller args sendOk st
        = (st, [Effect.rejectUnauthorized caller])
    ∧ stats_command admins caller st = (st, [Effect.rejectUnauthorized caller])
    ∧ cleanup_command admins caller now st = (st, [Effect.rejectUnauthorized caller])
    ∧ cancel_command admins caller st = (st, []) := by
  refine ⟨?_, ?_, ?_, ?_, ?_⟩ <;>
    simp [handle_callback, broadcast_command, stats_command, cleanup_command,
      cancel_command, h]

/-- Witness for C6 amended: identity 3 is not in the operator set [7] and
each entry point returns the untouched state with the stated reply. -/
theorem c6_unauthorized_no_mutation_witness :
    is_admin [7] 3 = false
    ∧ (handle_callback [7] 3 (CallbackData.reply 9) (fun _ _ => true) 0 st0
          = (st0, [Effect.answerUnauthorized 3])
      ∧ broadcast_command [7] 3 ["hello"] (fun _ => true) st0
          = (st0, [Effect.rejectUnauthorized 3])
      ∧ stats_command [7] 3 st0 = (st0, [Effect.rejectUnauthorized 3])
      ∧ cleanup_command [7] 3 0 st0 = (st0, [Effect.rejectUnauthorized 3])
      ∧ cancel_command [7] 3 st0 = (st0, [])) :=
  ⟨by decide,
    c6_unauthorized_no_mutation [7] 3 (CallbackData.reply 9) (fun _ _ => true)
      (fun _ => true) ["hello"] 0 st0 (by decide)⟩

/-- C9: the session sweep removes exactly the sessions whose last_activity
is older than the threshold and returns the count removed, so it never
increases the active count, and an immediate second sweep removes nothing;
the route-timeout sweep likewise reports zero expirations when run again
immediately. -/
theorem c9_sweep_exact (hours_threshold timeout_minutes : Int) (now : Time)
    (active : List (UserId × UserSession)) (timeouts : List (UserId × Time))
    (targets : List (UserId × UserId))
    (hA : keysNodup active) (hT : keysNodup timeouts) :
    (cleanup_inactive_users hours_threshold now active).1
        = active.filter
            (fun pr => !(decide (now - pr.2.last_activity > hours_threshold * 3600)))
    ∧ (cleanup_inactive_users hours_threshold now active).2
        = (active.filter
            (fun pr => decide (now - pr.2.last_activity > hours_threshold * 3600))).length
    ∧ (cleanup_inactive_users hours_threshold now active).1.length
          + (cleanup_inactive_users hours_threshold now active).2 = active.length
    ∧ (cleanup_inactive_users hours_threshold now active).1.length ≤ active.length
    ∧ (cleanup_inactive_users hours_threshold now
          (cleanup_inactive_users hours_threshold now active).1).2 = 0
    ∧ (check_reply_timeouts timeout_minutes now
          (check_reply_timeouts timeout_minutes now timeouts targets).1
          (check_reply_timeouts timeout_minutes now timeouts targets).2.1).2.2 = 0 := by
  have h1 : (cleanup_inactive_users hours_threshold now active).1
      = active.filter
          (fun pr => !(decide (now - pr.2.last_activity > hours_threshold * 3600))) :=
    eraseKeys_filter_keys _ active hA
  have h2 : (cleanup_inactive_users hours_threshold now active).2
      = (active.filter
          (fun pr => decide (now - pr.2.last_activity > hours_threshold * 3600))).length := by
    simp [cleanup_inactive_users]
  refine ⟨h1, h2, ?_, ?_, ?_, ?_⟩
  · rw [h1, h2, Nat.add_comm]
    exact filter_length_partition _ active
  · rw [h1]
    exact List.length_filter_le _ active
  · show ((cleanup_inactive_users hours_threshold now
        (cleanup_inactive_users hours_threshold now active).1).1,
          (cleanup_inactive_users hours_threshold now
            (cleanup_inactive_users hours_threshold now active).1).2).2 = 0
    rw [h1]
    simp only [cleanup_inactive_users, List.length_map]
    rw [filter_not_filter_nil]
    rfl
  · show ((check_reply_timeouts timeout_minutes now
        (check_reply_timeouts timeout_minutes now timeouts targets).1
        (check_reply_timeouts timeout_minutes now timeouts targets).2.1).2.2) = 0
    have ht1 : (check_reply_timeouts timeout_minutes now timeouts targets).1
        = timeouts.filter (fun pr => !(decide (now - pr.2 > timeout_minutes * 60))) :=
      eraseKeys_filter_keys _ timeouts hT
    rw [ht1]
    simp only [check_reply_timeouts, List.length_map]
    rw [filter_not_filter_nil]
    rfl

/-- A live session for user 5 whose last activity was at time 0, used by
the C9 witness. -/
def sess5 : UserSession :=
  { user_id := 5, username := "u5", first_name := "Eve", active_since := 0,
    message_ids := [], conversation_data := [], last_activity := 0 }

/-- A live session for user 6 whose last activity was at time 90000, used
by the C9 witness. -/
def sess6 : UserSession :=
  { user_id := 6, username := "u6", first_name := "Bob", active_since := 0,
    message_ids := [], conversation_data := [], last_activity := 90000 }

/-- Witness for C9: with the default 24 hour threshold at time 90001, the
sweep evicts exactly the stale session of user 5 and keeps user 6, and both
sweeps report zero on an immediate second run. -/
theorem c9_sweep_exact_witness :
    keysNodup [((5 : Int), sess5), (6, sess6)] ∧ keysNodup [((7 : Int), (0 : Int))]
    ∧ ((cleanup_inactive_users 24 90001 [((5 : Int), sess5), (6, sess6)]).1
          = [((5 : Int), sess5), (6, sess6)].filter
              (fun pr => !(decide ((90001 : Int) - pr.2.last_activity > 24 * 3600)))
      ∧ (cleanup_inactive_users 24 90001 [((5 : Int), sess5), (6, sess6)]).2
          = ([((5 : Int), sess5), (6, sess6)].filter
              (fun pr => decide ((90001 : Int) - pr.2.last_activity > 24 * 3600))).length
      ∧ (cleanup_inactive_users 24 90001 [((5 : Int), sess5), (6, sess6)]).1.length
            + (cleanup_inactive_users 24 90001 [((5 : Int), sess5), (6, sess6)]).2
          = [((5 : Int), sess5), (6, sess6)].length
      ∧ (cleanup_inactive_users 24 90001 [((5 : Int), sess5), (6, sess6)]).1.length
          ≤ [((5 : Int), sess5), (6, sess6)].length
      ∧ (cleanup_inactive_users 24 90001
            (cleanup_inactive_users 24 90001 [((5 : Int), sess5), (6, sess6)]).1).2 = 0
      ∧ (check_reply_timeouts 30 90001
            (check_reply_timeouts 30 90001 [((7 : Int), (0 : Int))] [((7 : Int), (3 : Int))]).1
            (check_reply_timeouts 30 90001 [((7 : Int), (0 : Int))]
              [((7 : Int), (3 : Int))]).2.1).2.2 = 0) :=
  ⟨by decide, by decide,
    c9_sweep_exact 24 30 90001 [((5 : Int), sess5), (6, sess6)]
      [((7 : Int), (0 : Int))] [((7 : Int), (3 : Int))] (by decide) (by decide)⟩

/-- Counterexample to C5: user 3 sends a text while the group notification
fails; the run produces exactly the failed group attempt and the user
receipt — no effect is addressed to operator 7, so no direct fallback
notice is sent to every operator individually. -/
theorem c5_no_operator_fallback_cex :
    (handle_user_message [7] (-100) 3 3 ⟨"u", "Alice"⟩ 11 (Content.text "hi")
        5 false true st0).2
      = [Effect.notifyGroupAttempt (-100) false, Effect.receiptToUser 3 100]
    ∧ ¬ (∀ op ∈ [(7 : Int)],
          ∃ e ∈ (handle_user_message [7] (-100) 3 3 ⟨"u", "Alice"⟩ 11
              (Content.text "hi") 5 false true st0).2,
            Effect.recipient e = some op) := by
  refine ⟨by decide, by decide⟩

/-- C5 amended: when the notification to the shared operator view fails the
error is logged and swallowed — no fallback notice is sent to any operator —
and the receipt to the user is still sent: the effects of a user message
are exactly the group attempt followed by the receipt, whatever the
outcome of the attempt. -/
theorem c5_notify_failure_still_receipts (admins : List Int)
    (group_id chat_id : Int) (user_id : UserId) (ud : Profile)
    (in_message_id : Int) (c : Content) (now : Time) (groupSendOk deliverOk : Bool)
    (st : BotState)
    (hchat : chat_id ≠ group_id)
    (hadm : is_admin admins user_id = false)
    (hallowed : (RateLimiter.is_allowed st.rate user_id now).1 = true) :
    (handle_user_message admins group_id chat_id user_id ud in_message_id c now
        groupSendOk deliverOk st).2
      = [Effect.notifyGroupAttempt group_id groupSendOk,
         Effect.receiptToUser chat_id st.nextMsgId] := by
  have hf := get_user_session_frame now user_id ud
    { st with rate := (RateLimiter.is_allowed st.rate user_id now).2 }
  have hset := setLastMessage_frame user_id
    { text := c.lastMessageText, timestamp := now, message_id := in_message_id,
      kind := c.lastMessageKind }
    (get_user_session now user_id ud
      { st with rate := (RateLimiter.is_allowed st.rate user_id now).2 }).2
  simp [handle_user_message, hallowed, hchat, hadm, fresh, hset.2.2.2.2,
    hf.2.2.2.2.2]

/-- Witness for C5 amended: a fresh user 3 in the empty state with a failed
group send still gets the receipt and nothing else is emitted. -/
theorem c5_notify_failure_still_receipts_witness :
    (3 : Int) ≠ (-100 : Int)
    ∧ is_admin [7] 3 = false
    ∧ (RateLimiter.is_allowed st0.rate 3 5).1 = true
    ∧ (handle_user_message [7] (-100) 3 3 ⟨"u", "Alice"⟩ 11 (Content.photo none)
          5 false true st0).2
        = [Effect.notifyGroupAttempt (-100) false, Effect.receiptToUser 3 st0.nextMsgId] :=
  ⟨by decide, by decide, by decide,
    c5_notify_failure_still_receipts [7] (-100) 3 3 ⟨"u", "Alice"⟩ 11
      (Content.photo none) 5 false true st0 (by decide) (by decide) (by decide)⟩

/-- Counterexample to C7: operator 7 with no active route writes in the
shared channel; the claim says the rate windows and session store are
unchanged, but the run appends the admission time to the rate window of
operator 7 and creates a session for it. -/
theorem c7_group_message_mutates_cex :
    dlookup 7 st0.admin_reply_targets = none
    ∧ st0.rate.user_messages = []
    ∧ dlookup 7 (handle_user_message [7] (-100) (-100) 7 ⟨"op", "Op"⟩ 11
        (Content.text "hi") 5 true true st0).1.rate.user_messages = some [5]
    ∧ dlookup 7 (handle_user_message [7] (-100) (-100) 7 ⟨"op", "Op"⟩ 11
        (Content.text "hi") 5 true true st0).1.active_users ≠ none := by
  refine ⟨by decide, by decide, by decide, by decide⟩

/-- C7 amended: a message of an operator without an active route in the
shared channel relays nothing — the route map and the audit log are
unchanged and the only possible effect is a throttle notice — but the rate
window of the operator is consulted and mutated and its session is created
or refreshed rather than left untouched. -/
theorem c7_operator_no_route_ignored (admins : List Int) (group_id : Int)
    (user_id : UserId) (ud : Profile) (in_message_id : Int) (c : Content)
    (now : Time) (groupSendOk deliverOk : Bool) (st : BotState)
    (hadm : is_admin admins user_id = true)
    (hroute : dlookup user_id st.admin_reply_targets = none) :
    (handle_user_message admins group_id group_id user_id ud in_message_id c now
        groupSendOk deliverOk st).1.admin_reply_targets = st.admin_reply_targets
    ∧ (handle_user_message admins group_id group_id user_id ud in_message_id c now
        groupSendOk deliverOk st).1.admin_logs = st.admin_logs
    ∧ (handle_user_message admins group_id group_id user_id ud in_message_id c now
        groupSendOk deliverOk st).1.rate = (RateLimiter.is_allowed st.rate user_id now).2
    ∧ ((handle_user_message admins group_id group_id user_id ud in_message_id c now
          groupSendOk deliverOk st).2 = []
      ∨ (handle_user_message admins group_id group_id user_id ud in_message_id c now
          groupSendOk deliverOk st).2 = [Effect.throttleNotice group_id st.nextMsgId]) := by
  have hf := get_user_session_frame now user_id ud
    { st with rate := (RateLimiter.is_allowed st.rate user_id now).2 }
  cases hal : (RateLimiter.is_allowed st.rate user_id now).1 with
  | false =>
    have hsm := store_message_id_frame user_id st.nextMsgId group_id "text"
      { st with rate := (RateLimiter.is_allowed st.rate user_id now).2,
                nextMsgId := st.nextMsgId + 1 }
    refine ⟨?_, ?_, ?_, Or.inr ?_⟩ <;>
      simp [handle_user_message, hal, fresh, hsm.1, hsm.2.2.1, hsm.2.2.2]
  | true =>
    refine ⟨?_, ?_, ?_, Or.inl ?_⟩ <;>
      simp [handle_user_message, hal, hadm, hf.1, hroute, hf.2.2.1, hf.2.2.2.1]

/-- Witness for C7 amended: operator 7 with no route messaging in the group
leaves routes and logs unchanged and produces no effects, while its rate
window is the mutated one. -/
theorem c7_operator_no_route_ignored_witness :
    is_admin [7] 7 = true
    ∧ dlookup 7 st0.admin_reply_targets = none
    ∧ ((handle_user_message [7] (-100) (-100) 7 ⟨"op", "Op"⟩ 11 (Content.text "hi")
          5 true true st0).1.admin_reply_targets = st0.admin_reply_targets
      ∧ (handle_user_message [7] (-100) (-100) 7 ⟨"op", "Op"⟩ 11 (Content.text "hi")
          5 true true st0).1.admin_logs = st0.admin_logs
      ∧ (handle_user_message [7] (-100) (-100) 7 ⟨"op", "Op"⟩ 11 (Content.text "hi")
          5 true true st0).1.rate = (RateLimiter.is_allowed st0.rate 7 5).2
      ∧ ((handle_user_message [7] (-100) (-100) 7 ⟨"op", "Op"⟩ 11 (Content.text "hi")
            5 true true st0).2 = []
        ∨ (handle_user_message [7] (-100) (-100) 7 ⟨"op", "Op"⟩ 11 (Content.text "hi")
            5 true true st0).2 = [Effect.throttleNotice (-100) st0.nextMsgId])) :=
  ⟨by decide, by decide,
    c7_operator_no_route_ignored [7] (-100) 7 ⟨"op", "Op"⟩ 11 (Content.text "hi")
      5 true true st0 (by decide) (by decide)⟩

/-- Two operators, 7 and 8, simultaneously bound to user 5; used to refute
the every-route clause of C4. -/
def st4cex : BotState :=
  { st0 with
      admin_reply_targets := [(7, 5), (8, 5)]
      admin_reply_timeouts := [(7, 0), (8, 0)] }

/-- Counterexample to C4: with operators 7 and 8 both routed to user 5, the
delete-history action clears only the first matching route — the route of
operator 8 survives, so not every route whose target is the user is
removed. -/
theorem c4_unbind_target_cex :
    dlookup 7 st4cex.admin_reply_targets = some 5
    ∧ dlookup 8 st4cex.admin_reply_targets = some 5
    ∧ dlookup 8 (delete_user_chat 7 5 (fun _ _ => true) st4cex).1.admin_reply_targets
        = some 5 := by
  refine ⟨by decide, by decide, by decide⟩

/-- C4 amended: even when individual deletions fail the purge completes —
every durable history row of the user is removed and no other row is lost,
the live session is removed, every stored reference is attempted and the
summary reports successes and failures that add up to the total — but only
the first route whose target is the user is cleared: when the route scan
finds an operator, that single route is removed and every other operator
keeps its route; when it finds none, the routes are untouched. -/
theorem c4_delete_purge_tolerates_failures (admin_id : Int) (user_id : UserId)
    (deleteOk : Int → Int → Bool) (st : BotState)
    (hA : keysNodup st.active_users) (hT : keysNodup st.admin_reply_targets) :
    (∀ row ∈ (delete_user_chat admin_id user_id deleteOk st).1.message_history,
        row.user_id ≠ user_id)
    ∧ (∀ row ∈ st.message_history, row.user_id ≠ user_id →
        row ∈ (delete_user_chat admin_id user_id deleteOk st).1.message_history)
    ∧ dlookup user_id (delete_user_chat admin_id user_id deleteOk st).1.active_users = none
    ∧ ((delete_user_chat admin_id user_id deleteOk st).2.filter
        Effect.isDeleteAttempt).length = (userRows user_id st).length
    ∧ Effect.editDeleteSummary
        ((userRows user_id st).filter (fun r => deleteOk r.chat_id r.message_id)).length
        ((userRows user_id st).filter (fun r => !(deleteOk r.chat_id r.message_id))).length
        ∈ (delete_user_chat admin_id user_id deleteOk st).2
    ∧ ((userRows user_id st).filter (fun r => deleteOk r.chat_id r.message_id)).length
        + ((userRows user_id st).filter (fun r => !(deleteOk r.chat_id r.message_id))).length
        = (userRows user_id st).length
    ∧ (st.admin_reply_targets.find? (fun pr => decide (pr.2 = user_id)) = none →
        (delete_user_chat admin_id user_id deleteOk st).1.admin_reply_targets
          = st.admin_reply_targets)
    ∧ (∀ b t2, st.admin_reply_targets.find? (fun pr => decide (pr.2 = user_id))
          = some (b, t2) → b ≠ 0 →
        dlookup b (delete_user_chat admin_id user_id deleteOk st).1.admin_reply_targets
            = none
        ∧ ∀ b2, b2 ≠ b →
            dlookup b2 (delete_user_chat admin_id user_id deleteOk st).1.admin_reply_targets
              = dlookup b2 st.admin_reply_targets) := by
  have hmh : (delete_user_chat admin_id user_id deleteOk st).1.message_history
      = st.message_history.filter (fun r => !(decide (r.user_id = user_id))) := by
    cases hcl : st.admin_reply_targets.find? (fun pr => decide (pr.2 = user_id)) with
    | none => simp [delete_user_chat, log_admin_action, hcl]
    | some pr =>
      by_cases h0 : pr.1 = 0
      · simp [delete_user_chat, log_admin_action, hcl, h0]
      · simp [delete_user_chat, log_admin_action, hcl, h0]
  have hau : (delete_user_chat admin_id user_id deleteOk st).1.active_users
      = derase user_id st.active_users := by
    cases hcl : st.admin_reply_targets.find? (fun pr => decide (pr.2 = user_id)) with
    | none => simp [delete_user_chat, log_admin_action, hcl]
    | some pr =>
      by_cases h0 : pr.1 = 0
      · simp [delete_user_chat, log_admin_action, hcl, h0]
      · simp [delete_user_chat, log_admin_action, hcl, h0]
  have hfx : (delete_user_chat admin_id user_id deleteOk st).2
      = ((userRows user_id st).map
          (fun r => Effect.deleteMessageAttempt r.chat_id r.message_id
            (deleteOk r.chat_id r.message_id))) ++
        [Effect.editDeleteSummary
            ((userRows user_id st).filter (fun r => deleteOk r.chat_id r.message_id)).length
            ((userRows user_id st).filter
              (fun r => !(deleteOk r.chat_id r.message_id))).length,
          Effect.notifyConversationEnded user_id] := by
    simp [delete_user_chat, log_admin_action]
  refine ⟨?_, ?_, ?_, ?_, ?_, ?_, ?_, ?_⟩
  · intro row hrow
    rw [hmh] at hrow
    have := (List.mem_filter.mp hrow).2
    simpa using this
  · intro row hrow hne
    rw [hmh]
    exact List.mem_filter.mpr ⟨hrow, by simpa using hne⟩
  · rw [hau]
    exact dlookup_derase_self user_id st.active_users hA
  · rw [hfx, List.filter_append]
    have h1 : ((userRows user_id st).map
        (fun r => Effect.deleteMessageAttempt r.chat_id r.message_id
          (deleteOk r.chat_id r.message_id))).filter Effect.isDeleteAttempt
        = (userRows user_id st).map
            (fun r => Effect.deleteMessageAttempt r.chat_id r.message_id
              (deleteOk r.chat_id r.message_id)) := by
      refine List.filter_eq_self.mpr (fun e he => ?_)
      rcases List.mem_map.mp he with ⟨r, _, hr⟩
      rw [← hr]
      rfl
    rw [h1]
    simp [Effect.isDeleteAttempt]
  · rw [hfx]
    simp
  · exact filter_length_partition _ (userRows user_id st)
  · intro hcl
    simp [delete_user_chat, log_admin_action, hcl]
  · intro b t2 hcl h0
    have htg : (delete_user_chat admin_id user_id deleteOk st).1.admin_reply_targets
        = derase b st.admin_reply_targets := by
      simp [delete_user_chat, log_admin_action, hcl, h0]
    constructor
    · rw [htg]
      exact dlookup_derase_self b st.admin_reply_targets hT
    · intro b2 hb2
      rw [htg]
      exact dlookup_derase_ne b2 b st.admin_reply_targets hb2

/-- Message rows for the C4 witness: user 5 owns five stored references and
user 6 owns one. -/
def stC4 : BotState :=
  { st0 with
      active_users := [(5, sess5)]
      admin_reply_targets := [(7, 5)]
      admin_reply_timeouts := [(7, 0)]
      message_history :=
        [⟨5, 1, 5, "text"⟩, ⟨5, 2, 5, "text"⟩, ⟨5, 3, 5, "text"⟩,
         ⟨5, 4, 5, "text"⟩, ⟨5, 5, 5, "text"⟩, ⟨6, 9, 6, "text"⟩] }

/-- The deletion oracle of the C4 witness: deleting reference 3 fails and
every other deletion succeeds. -/
def delOkC4 : Int → Int → Bool :=
  fun _ message_id => !(decide (message_id = 3))

/-- Witness for C4 amended: five refs with ref 3 failing report 4 succeeded
and 1 failed, the session, rows and the single route of operator 7 are
purged. -/
theorem c4_delete_purge_tolerates_failures_witness :
    keysNodup stC4.active_users ∧ keysNodup stC4.admin_reply_targets
    ∧ Effect.editDeleteSummary 4 1 ∈ (delete_user_chat 7 5 delOkC4 stC4).2
    ∧ dlookup 7 (delete_user_chat 7 5 delOkC4 stC4).1.admin_reply_targets = none
    ∧ (delete_user_chat 7 5 delOkC4 stC4).1.message_history = [⟨6, 9, 6, "text"⟩]
    ∧ (∀ row ∈ (delete_user_chat 7 5 delOkC4 stC4).1.message_history,
          row.user_id ≠ 5)
    ∧ dlookup 5 (delete_user_chat 7 5 delOkC4 stC4).1.active_users = none :=
  ⟨by decide, by decide, by decide, by decide, by decide,
    (c4_delete_purge_tolerates_failures 7 5 delOkC4 stC4 (by decide) (by decide)).1,
    (c4_delete_purge_tolerates_failures 7 5 delOkC4 stC4 (by decide) (by decide)).2.2.1⟩
